import Mathlib

set_option maxRecDepth 8000

namespace EventStream

/-!
Shallow embedding of the upload orchestration of the `event-stream-api`
repository: `S3Service` (src/common/services/s3/s3.service.ts),
`MuxService` (src/common/services/mux/mux.service.ts) and
`UploadService` (src/modules/upload/upload.service.ts).

The two external collaborators (S3 `put`/`head`/`delete`, Mux asset
creation) are modelled by oracles collected in `Env`; every embedded
operation returns its result together with the list of external calls it
issued, in issue order.  A JavaScript exception crossing a method boundary
is modelled by `Except String`, the carried `String` being
`error.message`.  `randomUUID()` outputs are passed in explicitly (a
single value for a single call, an `Nat → String` stream for batch calls),
so all theorems quantify over them.
-/

/-- One input file as delivered by Multer (`Express.Multer.File`).  The
payload bytes (`buffer`) are never inspected by the orchestration logic —
they are passed verbatim to `PutObjectCommand` — so they are not
represented. -/
structure UFile where
  originalname : String
  mimetype : String
  size : Nat
deriving DecidableEq, Repr

/-- The `'video' | 'image'` literal union used by `S3Service`. -/
inductive FileType where
  | video
  | image
deriving DecidableEq, Repr

/-- The `ALLOWED_VIDEO_TYPES` list in s3.service.ts. -/
def ALLOWED_VIDEO_TYPES : List String :=
  ["video/mp4", "video/quicktime", "video/x-msvideo", "video/x-matroska", "video/webm"]

/-- The `ALLOWED_IMAGE_TYPES` list in s3.service.ts. -/
def ALLOWED_IMAGE_TYPES : List String :=
  ["image/jpeg", "image/png", "image/gif", "image/webp"]

def fileTypeName : FileType → String
  | .video => "video"
  | .image => "image"

def allowedTypes : FileType → List String
  | .video => ALLOWED_VIDEO_TYPES
  | .image => ALLOWED_IMAGE_TYPES

/-- The `maxSize` ceiling in `validateFile`: 100MB for videos, 5MB for images. -/
def maxFileSize : FileType → Nat
  | .video => 100 * 1024 * 1024
  | .image => 5 * 1024 * 1024

/-- Embeds `S3Service.validateFile`.  Returns `some message` when the method
throws a `FileUploadException`, `none` when validation passes.  The JS
guard `!file.mimetype` is the empty-string/undefined check. -/
def validateFile (file : UFile) (fileType : FileType) : Option String :=
  if file.mimetype = "" ∨ file.mimetype ∉ allowedTypes fileType then
    some ("Invalid " ++ fileTypeName fileType ++ " type. Allowed types: " ++
      String.intercalate ", " (allowedTypes fileType))
  else if file.size > maxFileSize fileType then
    some ("File size exceeds limit. Maximum size for " ++ fileTypeName fileType ++
      " is " ++ toString (maxFileSize fileType / (1024 * 1024)) ++ "MB")
  else
    none

/-- Response of a `HeadObjectCommand` (fields the code reads; both are
optional on the wire, the code substitutes defaults). -/
structure HeadResp where
  contentType : Option String
  contentLength : Option Nat
deriving DecidableEq, Repr

/-- The fields of a Mux asset as returned by the remote
`video.assets.create` call (what `MuxService.createAsset` reads from the
response).  `createdAt` stands for the `created_at` timestamp. -/
structure RawAsset where
  id : String
  status : String
  duration : Nat
  aspectRatio : String
  playbackIds : List String
  createdAt : Nat
  uploadId : String
deriving DecidableEq, Repr

/-- Oracles for the two external services plus the static configuration.
For each request the oracle returns what the remote end would do:
`none`/`.ok` for success, `some msg`/`.error msg` for a failure whose
`error.message` is `msg`.  The Mux create call is keyed on the input URL —
the title is not part of the remote request body. -/
structure Env where
  bucketName : String
  region : String
  putResult : String → Option String
  headResult : String → Except String HeadResp
  deleteResult : String → Option String
  createAssetResult : String → Option RawAsset

/-- One external call, as issued (trace entry). -/
inductive ExtCall where
  | s3Put (bucket key contentType : String)
  | s3Head (bucket key : String)
  | s3Delete (bucket key : String)
  | muxCreate (inputUrl : String)
deriving DecidableEq, Repr

/-- The optional media metadata of `S3UploadResult` (never populated by
the current `uploadFile`). -/
structure FileMeta where
  width : Option Nat := none
  height : Option Nat := none
  duration : Option Nat := none
deriving DecidableEq, Repr

/-- The `S3UploadResult` interface in s3.service.ts. -/
structure S3UploadResult where
  url : String
  key : String
  contentType : String
  size : Nat
  metadata : Option FileMeta := none
deriving DecidableEq, Repr

/-- The public URL built for an object key:
`https://<bucket>.s3.<region>.amazonaws.com/<key>`. -/
def objectUrl (env : Env) (key : String) : String :=
  "https://" ++ env.bucketName ++ ".s3." ++ env.region ++ ".amazonaws.com/" ++ key

/-- Embeds `S3Service.getFileMetadata`: one `HeadObjectCommand`, defaults
`application/octet-stream` / `0` for missing response fields, wraps a
remote failure in `Failed to get file metadata: …`. -/
def getFileMetadata (env : Env) (key : String) :
    Except String (String × Nat) × List ExtCall :=
  match env.headResult key with
  | .ok h =>
      (.ok (h.contentType.getD "application/octet-stream", h.contentLength.getD 0),
       [.s3Head env.bucketName key])
  | .error e =>
      (.error ("Failed to get file metadata: " ++ e), [.s3Head env.bucketName key])

/-- Default value of `uploadFile`'s `folder` parameter. -/
def defaultFolder : FileType → String
  | .video => "videos"
  | .image => "images"

/-- Embeds `S3Service.uploadFile`.  Throws (`.error`) on missing file, on
validation failure (before any network call), and when the put or the
subsequent head fails — the outer catch wraps those as
`Failed to upload file to S3: …`.  `uuid` is the value `randomUUID()`
returned in this invocation. -/
def uploadFile (env : Env) (uuid : String) (file? : Option UFile)
    (fileType : FileType) (folder : String) :
    Except String S3UploadResult × List ExtCall :=
  match file? with
  | none => (.error "No file provided", [])
  | some file =>
    match validateFile file fileType with
    | some msg => (.error msg, [])
    | none =>
      let fileName := folder ++ "/" ++ uuid ++ "-" ++ file.originalname
      match env.putResult fileName with
      | some e =>
          (.error ("Failed to upload file to S3: " ++ e),
           [.s3Put env.bucketName fileName file.mimetype])
      | none =>
        match getFileMetadata env fileName with
        | (.ok (ct, sz), t) =>
            (.ok { url := objectUrl env fileName, key := fileName,
                   contentType := ct, size := sz },
             .s3Put env.bucketName fileName file.mimetype :: t)
        | (.error e, t) =>
            (.error ("Failed to upload file to S3: " ++ e),
             .s3Put env.bucketName fileName file.mimetype :: t)

/-- Embeds `S3Service.deleteFile`: one `DeleteObjectCommand`; a remote failure is
rethrown as `Failed to delete file from S3: …`. -/
def deleteFile (env : Env) (key : String) : Except String Unit × List ExtCall :=
  match env.deleteResult key with
  | none => (.ok (), [.s3Delete env.bucketName key])
  | some e =>
      (.error ("Failed to delete file from S3: " ++ e),
       [.s3Delete env.bucketName key])

inductive SettleStatus where
  | fulfilled
  | rejected
deriving DecidableEq, Repr

/-- One element of `uploadMultipleFiles`'s result: the
fulfilled/rejected record built by the per-file `.then/.catch` pair. -/
structure Settled where
  status : SettleStatus
  value : Option S3UploadResult := none
  reason : Option String := none
  fileName : String
deriving DecidableEq, Repr

/-- The `.then/.catch` wrapper around one `uploadFile` call inside
`uploadMultipleFiles`. -/
def settleUpload (env : Env) (uuid : String) (file : UFile)
    (fileType : FileType) (folder : String) : Settled × List ExtCall :=
  match uploadFile env uuid (some file) fileType folder with
  | (.ok v, t) =>
      ({ status := .fulfilled, value := some v, fileName := file.originalname }, t)
  | (.error e, t) =>
      ({ status := .rejected, reason := some e, fileName := file.originalname }, t)

/-- The `files.map(file => uploadFile(file, …).then….catch…)` fan-out,
joined by `Promise.all`, which places each file's settled record at the
file's input position.  `i` is the position of the first file of `files`
in the original list (used to address the uuid stream). -/
def uploadEach (env : Env) (uuids : Nat → String) (fileType : FileType)
    (folder : String) : Nat → List UFile → List Settled × List ExtCall
  | _, [] => ([], [])
  | i, f :: rest =>
      ((settleUpload env (uuids i) f fileType folder).1 ::
         (uploadEach env uuids fileType folder (i + 1) rest).1,
       (settleUpload env (uuids i) f fileType folder).2 ++
         (uploadEach env uuids fileType folder (i + 1) rest).2)

/-- Embeds `S3Service.uploadMultipleFiles`.  The guard
`!files || files.length === 0` returns `[]` without any call.  The outer
try/catch is unreachable: every per-file promise carries its own
`.catch`, so `Promise.all` cannot reject. -/
def uploadMultipleFiles (env : Env) (uuids : Nat → String)
    (files? : Option (List UFile)) (fileType : FileType)
    (folder? : Option String) : List Settled × List ExtCall :=
  match files? with
  | none => ([], [])
  | some files =>
    if files.length = 0 then ([], [])
    else uploadEach env uuids fileType (folder?.getD (defaultFolder fileType)) 0 files

/-- The `VideoMetadata` interface in common/interfaces (what `MuxService.createAsset`
returns). -/
structure VideoMetadata where
  id : String
  title : String
  status : String
  duration : Nat
  aspectRatio : String
  playbackId : Option String
  createdAt : Nat
  uploadId : String
  s3Url : String
deriving DecidableEq, Repr

/-- Embeds `MuxService.createAsset`: one remote `video.assets.create` call; a
remote failure is logged and rethrown as the fixed message
`Failed to process video with Mux`. -/
def createAsset (env : Env) (videoUrl : String) (title : String) :
    Except String VideoMetadata × List ExtCall :=
  match env.createAssetResult videoUrl with
  | some a =>
      (.ok { id := a.id, title := title, status := a.status,
             duration := a.duration, aspectRatio := a.aspectRatio,
             playbackId := a.playbackIds.head?, createdAt := a.createdAt,
             uploadId := a.uploadId, s3Url := videoUrl },
       [.muxCreate videoUrl])
  | none => (.error "Failed to process video with Mux", [.muxCreate videoUrl])

inductive UploadStatus where
  | success
  | failed
deriving DecidableEq, Repr

/-- The `data` field of `UploadResult` in upload.service.ts. -/
structure UploadData where
  id : Option String := none
  title : Option String := none
  url : String
  status : Option String := none
  duration : Option Nat := none
  aspectRatio : Option String := none
  playbackId : Option String := none
  createdAt : Option Nat := none
  uploadId : Option String := none
  s3Url : String
  contentType : String
  size : Nat
  metadata : Option FileMeta := none
deriving DecidableEq, Repr

/-- The `UploadResult` interface in upload.service.ts. -/
structure UploadResult where
  status : UploadStatus
  data : Option UploadData := none
  error : Option String := none
  fileName : String
deriving DecidableEq, Repr

/-- The JS expression `title || fallback`: `undefined` and the empty
string both fall back. -/
def resolveTitle (title? : Option String) (fallback : String) : String :=
  match title? with
  | some t => if t = "" then fallback else t
  | none => fallback

/-- The spread `{...muxResult, url, contentType, size}` building the
`data` of a successful video `UploadResult` (both single and batch flow):
`url`, `contentType` and `size` come from the S3 result, everything else
from the Mux result. -/
def mergedVideoData (m : VideoMetadata) (url ct : String) (sz : Nat) : UploadData :=
  { id := some m.id, title := some m.title, url := url, status := some m.status,
    duration := some m.duration, aspectRatio := some m.aspectRatio,
    playbackId := m.playbackId, createdAt := some m.createdAt,
    uploadId := some m.uploadId, s3Url := m.s3Url, contentType := ct, size := sz }

/-- Try-block of `UploadService.uploadVideo`: S3 write, then Mux asset
creation with `title || file.originalname`, then the merged success
result.  Note: no compensating delete appears anywhere in this method. -/
def uploadVideoBody (env : Env) (uuid : String) (file : UFile)
    (title? : Option String) : Except String UploadResult × List ExtCall :=
  match uploadFile env uuid (some file) .video "videos" with
  | (.error e, t) => (.error e, t)
  | (.ok s3r, t) =>
    match createAsset env s3r.url (resolveTitle title? file.originalname) with
    | (.error e, tc) => (.error e, t ++ tc)
    | (.ok m, tc) =>
        (.ok { status := .success,
               data := some (mergedVideoData m s3r.url s3r.contentType s3r.size),
               fileName := file.originalname },
         t ++ tc)

/-- Embeds `UploadService.uploadVideo`: the catch-all converts every failure into
a returned `failed` `UploadResult` (the method never rethrows). -/
def uploadVideo (env : Env) (uuid : String) (file : UFile)
    (title? : Option String) : Except String UploadResult × List ExtCall :=
  match uploadVideoBody env uuid file title? with
  | (.ok r, t) => (.ok r, t)
  | (.error e, t) =>
      (.ok { status := .failed, error := some e, fileName := file.originalname }, t)

/-- Try-block of `UploadService.uploadImage`. -/
def uploadImageBody (env : Env) (uuid : String) (file : UFile) :
    Except String UploadResult × List ExtCall :=
  match uploadFile env uuid (some file) .image "images" with
  | (.error e, t) => (.error e, t)
  | (.ok r, t) =>
      (.ok { status := .success,
             data := some { url := r.url, s3Url := r.url, contentType := r.contentType,
                            size := r.size, metadata := r.metadata },
             fileName := file.originalname },
       t)

/-- Embeds `UploadService.uploadImage`: catch-all as in `uploadVideo`. -/
def uploadImage (env : Env) (uuid : String) (file : UFile) :
    Except String UploadResult × List ExtCall :=
  match uploadImageBody env uuid file with
  | (.ok r, t) => (.ok r, t)
  | (.error e, t) =>
      (.ok { status := .failed, error := some e, fileName := file.originalname }, t)

/-- The `files[index]` access as used inside `uploadMultipleVideos`.  The index is
always in range there (the settled list is a map over `files`); JS would
crash on an out-of-range access, the default is never exercised. -/
def fileAt (files : List UFile) (i : Nat) : UFile :=
  (files[i]?).getD { originalname := "", mimetype := "", size := 0 }

/-- The body of `s3Results.map(async (result, index) => …)` in
`uploadMultipleVideos`, for one settled S3 result at position `index`:
on a fulfilled result, resolve the title (`titles?.[index] ||
files[index].originalname`), call Mux, and on a Mux failure issue the
compensating delete whose own failure is swallowed by `.catch`; on a
rejected result, report the stored reason without any further call. -/
def muxOne (env : Env) (files : List UFile) (titles? : Option (List String))
    (index : Nat) (result : Settled) : UploadResult × List ExtCall :=
  match result.status, result.value with
  | .fulfilled, some v =>
    (match createAsset env v.url
        (resolveTitle (titles?.bind fun ts => ts[index]?) (fileAt files index).originalname) with
     | (.ok m, tc) =>
         ({ status := .success,
            data := some (mergedVideoData m v.url v.contentType v.size),
            fileName := result.fileName },
          tc)
     | (.error e, tc) =>
         ({ status := .failed, error := some ("Mux processing failed: " ++ e),
            fileName := result.fileName },
          tc ++ (deleteFile env v.key).2))
  | _, _ =>
      ({ status := .failed, error := result.reason, fileName := result.fileName }, [])

/-- The `Promise.all` over `s3Results.map(async (result, index) => …)`:
one `muxOne` per settled record, results in input order, traces
concatenated in input order. -/
def muxPhase (env : Env) (files : List UFile) (titles? : Option (List String)) :
    Nat → List Settled → List UploadResult × List ExtCall
  | _, [] => ([], [])
  | i, r :: rest =>
      ((muxOne env files titles? i r).1 :: (muxPhase env files titles? (i + 1) rest).1,
       (muxOne env files titles? i r).2 ++ (muxPhase env files titles? (i + 1) rest).2)

/-- Per-item traces of the mux phase (for attributing external calls to
input items). -/
def muxTraces (env : Env) (files : List UFile) (titles? : Option (List String)) :
    Nat → List Settled → List (List ExtCall)
  | _, [] => []
  | i, r :: rest =>
      (muxOne env files titles? i r).2 :: muxTraces env files titles? (i + 1) rest

/-- Embeds `UploadService.uploadMultipleVideos`.  The guard
`!files || files.length === 0` returns `[]`.  The outer catch (which would
rethrow a `FileUploadException`) is unreachable: `uploadMultipleFiles`
settles every per-file failure and the mapped mux step catches its own
errors, so the try-block cannot throw. -/
def uploadMultipleVideos (env : Env) (uuids : Nat → String)
    (files? : Option (List UFile)) (titles? : Option (List String)) :
    Except String (List UploadResult) × List ExtCall :=
  match files? with
  | none => (.ok [], [])
  | some files =>
    if files.length = 0 then (.ok [], [])
    else
      (.ok (muxPhase env files titles? 0
              (uploadMultipleFiles env uuids (some files) .video none).1).1,
       (uploadMultipleFiles env uuids (some files) .video none).2 ++
         (muxPhase env files titles? 0
            (uploadMultipleFiles env uuids (some files) .video none).1).2)

/-- The `results.map(result => …)` shaping in `uploadMultipleImages`. -/
def imageOutcome (r : Settled) : UploadResult :=
  match r.status, r.value with
  | .fulfilled, some v =>
      { status := .success,
        data := some { url := v.url, s3Url := v.url, contentType := v.contentType,
                       size := v.size, metadata := v.metadata },
        fileName := r.fileName }
  | _, _ => { status := .failed, error := r.reason, fileName := r.fileName }

/-- Embeds `UploadService.uploadMultipleImages`.  Same guard and same
unreachable outer catch as the video batch. -/
def uploadMultipleImages (env : Env) (uuids : Nat → String)
    (files? : Option (List UFile)) : Except String (List UploadResult) × List ExtCall :=
  match files? with
  | none => (.ok [], [])
  | some files =>
    if files.length = 0 then (.ok [], [])
    else
      (.ok ((uploadMultipleFiles env uuids (some files) .image none).1.map imageOutcome),
       (uploadMultipleFiles env uuids (some files) .image none).2)

/-- Embeds `UploadService.getVideoStatus`, which delegates verbatim to the Mux client's
status lookup (modelled directly on the oracle's view of
`assets.retrieve(id).status`). -/
def getVideoStatus (statusOf : String → Except String String) (id : String) :
    Except String String :=
  statusOf id

/-- The character class kept by the upload controller's sanitize regex
(the complement of `[^a-zA-Z0-9-_. ]`): ASCII letters, digits, hyphen,
underscore, period, space. -/
def allowedTitleChar (c : Char) : Bool :=
  c.isAlpha || c.isDigit || c = '-' || c = '_' || c = '.' || c = ' '

/-- Whitespace trimming on a character list (leading and trailing),
embedding the JS `String.prototype.trim` used by the controller. -/
def trimChars (l : List Char) : List Char :=
  ((l.dropWhile Char.isWhitespace).reverse.dropWhile Char.isWhitespace).reverse

/-- Embeds the per-title sanitize expression of
`UploadController.uploadMultipleVideos` (the batch-videos endpoint):
`title?.trim().replace(/[^a-zA-Z0-9-_. ]/g, '') || ''`.
An undefined element maps to the empty string; a title whose stripped
form is empty also ends up as the empty string (which the service's
`title || originalname` resolution later treats as absent). -/
def sanitizeOne (title? : Option String) : String :=
  match title? with
  | none => ""
  | some t => String.mk ((trimChars t.toList).filter allowedTitleChar)

/-- Embeds the title pipeline of the batch-videos endpoint:
`Array.isArray(rawTitles) ? rawTitles.map(title => sanitize(title)) : []`. -/
def sanitizeTitles (rawTitles? : Option (List (Option String))) : List String :=
  match rawTitles? with
  | some ts => ts.map sanitizeOne
  | none => []

/-- Embeds the batch-videos endpoint of `UploadController`: sanitize the
raw titles, then delegate to the orchestrator's batch flow.  This is the
only place any title sanitization happens. -/
def batchVideosEndpoint (env : Env) (uuids : Nat → String) (files : List UFile)
    (rawTitles? : Option (List (Option String))) :
    Except String (List UploadResult) × List ExtCall :=
  uploadMultipleVideos env uuids (some files) (some (sanitizeTitles rawTitles?))

/-- Embeds the single-video endpoint of `UploadController`: the caller's
title is passed to the orchestrator unmodified
(`uploadService.uploadVideo(file, uploadVideoDto.title)` — no
sanitization on this path), and no pre-flight batch validation exists on
any endpoint of the current controller. -/
def singleVideoEndpoint (env : Env) (uuid : String) (file : UFile)
    (title? : Option String) : Except String UploadResult × List ExtCall :=
  uploadVideo env uuid file title?

/-- Position-indexed collection of all-settled results under an arbitrary
completion schedule: each completion `j` (in completion order `order`)
writes task `j`'s settled value into slot `j` of a slot array sized to
the input length. -/
def settleSlots {α : Type} (tasks : List α) (order : List Nat) : List (Option α) :=
  order.foldl (fun slots j => slots.set j tasks[j]?) (List.replicate tasks.length none)

/-! ### Concrete fixtures used by witnesses and counterexamples -/

/-- A Mux asset as the remote side reports it, status `preparing`. -/
def rawPreparing : RawAsset :=
  { id := "asset-1"
    status := "preparing"
    duration := 120
    aspectRatio := "16:9"
    playbackIds := ["pb-1"]
    createdAt := 1700000000
    uploadId := "up-1" }

/-- Environment in which every external call succeeds. -/
def envAllOk : Env :=
  { bucketName := "b"
    region := "r"
    putResult := fun _ => none
    headResult := fun _ => .ok { contentType := some "video/mp4", contentLength := some 50 }
    deleteResult := fun _ => none
    createAssetResult := fun _ => some rawPreparing }

/-- Environment in which the S3 put fails (storage write failure). -/
def envS3Down : Env :=
  { bucketName := "b"
    region := "r"
    putResult := fun _ => some "boom"
    headResult := fun _ => .error "unreachable"
    deleteResult := fun _ => none
    createAssetResult := fun _ => some rawPreparing }

/-- Environment in which storage succeeds but Mux asset creation fails,
and the compensating delete fails as well. -/
def envMuxDown : Env :=
  { bucketName := "b"
    region := "r"
    putResult := fun _ => none
    headResult := fun _ => .ok { contentType := some "video/mp4", contentLength := some 50 }
    deleteResult := fun _ => some "delete boom"
    createAssetResult := fun _ => none }

/-- A 50-byte mp4 named clip.mp4. -/
def fClip : UFile := { originalname := "clip.mp4", mimetype := "video/mp4", size := 50 }

/-- A second video file. -/
def fOther : UFile := { originalname := "other.mp4", mimetype := "video/webm", size := 60 }

/-- A 6MB png (oversized for the image namespace). -/
def fBigPng : UFile :=
  { originalname := "big.png", mimetype := "image/png", size := 6 * 1024 * 1024 }

/-- A small valid png. -/
def fPng : UFile := { originalname := "pic.png", mimetype := "image/png", size := 100 }

/-- The uuid stream used by concrete batch runs. -/
def uuidsAt (i : Nat) : String := "uuid" ++ toString i

/-- The stored-object descriptor produced for `fClip` under `uuidsAt`
at batch position 0. -/
def vMux : S3UploadResult :=
  { url := "https://b.s3.r.amazonaws.com/videos/uuid0-clip.mp4"
    key := "videos/uuid0-clip.mp4"
    contentType := "video/mp4"
    size := 50 }

/-- The settled record of `fClip` in a batch whose storage write succeeded. -/
def rMux : Settled :=
  { status := .fulfilled, value := some vMux, fileName := "clip.mp4" }

/-- The settled record of `fClip` in a batch whose storage write failed. -/
def rS3 : Settled :=
  { status := .rejected
    reason := some "Failed to upload file to S3: boom"
    fileName := "clip.mp4" }

/-- A concrete settled pair used to exercise the completion-schedule
model. -/
def settledPair : List Settled :=
  [{ status := .fulfilled, fileName := "a" }, { status := .rejected, fileName := "b" }]

/-! ### Helper lemmas -/

theorem settleUpload_fileName (env : Env) (uuid : String) (f : UFile)
    (ft : FileType) (folder : String) :
    (settleUpload env uuid f ft folder).1.fileName = f.originalname := by
  rcases h : uploadFile env uuid (some f) ft folder with ⟨r, t⟩
  cases r <;> simp [settleUpload, h]

theorem uploadEach_length (env : Env) (uuids : Nat → String) (ft : FileType)
    (folder : String) (i : Nat) (fs : List UFile) :
    (uploadEach env uuids ft folder i fs).1.length = fs.length := by
  induction fs generalizing i with
  | nil => rfl
  | cons f rest ih => simp [uploadEach, ih (i + 1)]

theorem uploadEach_getElem? (env : Env) (uuids : Nat → String) (ft : FileType)
    (folder : String) (i j : Nat) (fs : List UFile) :
    ((uploadEach env uuids ft folder i fs).1)[j]? =
      (fs[j]?).map fun f => (settleUpload env (uuids (i + j)) f ft folder).1 := by
  induction fs generalizing i j with
  | nil => simp [uploadEach]
  | cons f rest ih =>
    cases j with
    | zero => simp [uploadEach]
    | succ j =>
      have harith : i + 1 + j = i + (j + 1) := by omega
      simp only [uploadEach, List.getElem?_cons_succ]
      rw [ih (i + 1) j, harith]

theorem muxOne_fileName (env : Env) (files : List UFile)
    (titles? : Option (List String)) (i : Nat) (r : Settled) :
    (muxOne env files titles? i r).1.fileName = r.fileName := by
  rcases r with ⟨st, val, rsn, fn⟩
  cases st <;> cases val <;> simp only [muxOne]
  rcases h : createAsset env _ _ with ⟨res, tc⟩
  cases res <;> simp [h]

theorem muxPhase_length (env : Env) (files : List UFile)
    (titles? : Option (List String)) (i : Nat) (settled : List Settled) :
    (muxPhase env files titles? i settled).1.length = settled.length := by
  induction settled generalizing i with
  | nil => rfl
  | cons r rest ih => simp [muxPhase, ih (i + 1)]

theorem muxPhase_getElem? (env : Env) (files : List UFile)
    (titles? : Option (List String)) (i j : Nat) (settled : List Settled) :
    ((muxPhase env files titles? i settled).1)[j]? =
      (settled[j]?).map fun r => (muxOne env files titles? (i + j) r).1 := by
  induction settled generalizing i j with
  | nil => simp [muxPhase]
  | cons r rest ih =>
    cases j with
    | zero => simp [muxPhase]
    | succ j =>
      have harith : i + 1 + j = i + (j + 1) := by omega
      simp only [muxPhase, List.getElem?_cons_succ]
      rw [ih (i + 1) j, harith]

theorem muxPhase_trace (env : Env) (files : List UFile)
    (titles? : Option (List String)) (i : Nat) (settled : List Settled) :
    (muxPhase env files titles? i settled).2 =
      (muxTraces env files titles? i settled).flatten := by
  induction settled generalizing i with
  | nil => rfl
  | cons r rest ih => simp [muxPhase, muxTraces, ih (i + 1)]

theorem muxTraces_getElem? (env : Env) (files : List UFile)
    (titles? : Option (List String)) (i j : Nat) (settled : List Settled) :
    (muxTraces env files titles? i settled)[j]? =
      (settled[j]?).map fun r => (muxOne env files titles? (i + j) r).2 := by
  induction settled generalizing i j with
  | nil => simp [muxTraces]
  | cons r rest ih =>
    cases j with
    | zero => simp [muxTraces]
    | succ j =>
      have harith : i + 1 + j = i + (j + 1) := by omega
      simp only [muxTraces, List.getElem?_cons_succ]
      rw [ih (i + 1) j, harith]

theorem deleteFile_trace (env : Env) (key : String) :
    (deleteFile env key).2 = [ExtCall.s3Delete env.bucketName key] := by
  unfold deleteFile
  cases env.deleteResult key <;> rfl

theorem foldl_set_getElem? {β : Type} (f : Nat → β) (order : List Nat)
    (slots : List β) (i : Nat) :
    ((order.foldl (fun s j => s.set j (f j)) slots))[i]? =
      if i ∈ order ∧ i < slots.length then some (f i) else slots[i]? := by
  induction order generalizing slots with
  | nil => simp
  | cons j rest ih =>
    rw [List.foldl_cons, ih (slots.set j (f j)), List.length_set, List.getElem?_set]
    by_cases hlen : i < slots.length
    · by_cases hmem : i ∈ rest
      · simp [hmem, hlen, List.mem_cons]
      · by_cases hij : j = i
        · simp [hij, hmem, hlen, List.mem_cons]
        · simp [hij, hmem, hlen, List.mem_cons, Ne.symm hij]
    · have hnone : slots[i]? = none := List.getElem?_eq_none (by omega)
      by_cases hij : j = i
      · simp [hij, hlen, hnone]
      · simp [hij, hlen, hnone]

theorem settleSlots_of_perm {α : Type} (tasks : List α) (order : List Nat)
    (h : order.Perm (List.range tasks.length)) :
    settleSlots tasks order = tasks.map some := by
  apply List.ext_getElem?
  intro i
  unfold settleSlots
  rw [foldl_set_getElem? (fun j => tasks[j]?) order _ i]
  rw [List.length_replicate]
  by_cases hi : i < tasks.length
  · have hmem : i ∈ order := h.mem_iff.mpr (List.mem_range.mpr hi)
    simp [hmem, hi, List.getElem?_eq_getElem hi]
  · have h1 : (List.replicate tasks.length (none : Option α))[i]? = none :=
      List.getElem?_eq_none (by rw [List.length_replicate]; omega)
    have h2 : tasks[i]? = none := List.getElem?_eq_none (by omega)
    rw [if_neg (fun hc => hi hc.2), h1, List.getElem?_map, h2]
    rfl

theorem validateFile_none (file : UFile) (ft : FileType)
    (h : validateFile file ft = none) :
    file.mimetype ≠ "" ∧ file.mimetype ∈ allowedTypes ft ∧
      file.size ≤ maxFileSize ft := by
  by_cases h1 : file.mimetype = "" ∨ file.mimetype ∉ allowedTypes ft
  · simp [validateFile, h1] at h
  · by_cases h2 : file.size > maxFileSize ft
    · simp [validateFile, h1, h2] at h
    · push_neg at h1
      exact ⟨h1.1, h1.2, by omega⟩

theorem validateFile_oversize (file : UFile) (ft : FileType)
    (hmem : file.mimetype ∈ allowedTypes ft) (hsz : file.size > maxFileSize ft) :
    validateFile file ft =
      some ("File size exceeds limit. Maximum size for " ++ fileTypeName ft ++
        " is " ++ toString (maxFileSize ft / (1024 * 1024)) ++ "MB") := by
  have hne : ¬ (file.mimetype = "" ∨ file.mimetype ∉ allowedTypes ft) := by
    rintro (he | hn)
    · rw [he] at hmem
      cases ft <;> revert hmem <;> decide
    · exact hn hmem
  simp [validateFile, hne, hsz]

theorem uploadMultipleFiles_some (env : Env) (uuids : Nat → String)
    (fs : List UFile) (ft : FileType) (folder? : Option String)
    (hlen : ¬ fs.length = 0) :
    uploadMultipleFiles env uuids (some fs) ft folder? =
      uploadEach env uuids ft (folder?.getD (defaultFolder ft)) 0 fs := by
  simp [uploadMultipleFiles, hlen]

theorem uploadMultipleVideos_eq (env : Env) (uuids : Nat → String)
    (fs : List UFile) (titles? : Option (List String)) (hlen : ¬ fs.length = 0) :
    uploadMultipleVideos env uuids (some fs) titles? =
      (.ok (muxPhase env fs titles? 0
              (uploadMultipleFiles env uuids (some fs) .video none).1).1,
       (uploadMultipleFiles env uuids (some fs) .video none).2 ++
         (muxPhase env fs titles? 0
            (uploadMultipleFiles env uuids (some fs) .video none).1).2) := by
  simp [uploadMultipleVideos, hlen]

theorem uploadMultipleImages_eq (env : Env) (uuids : Nat → String)
    (fs : List UFile) (hlen : ¬ fs.length = 0) :
    uploadMultipleImages env uuids (some fs) =
      (.ok ((uploadMultipleFiles env uuids (some fs) .image none).1.map imageOutcome),
       (uploadMultipleFiles env uuids (some fs) .image none).2) := by
  simp [uploadMultipleImages, hlen]

theorem imageOutcome_fileName (r : Settled) : (imageOutcome r).fileName = r.fileName := by
  rcases r with ⟨st, val, rsn, fn⟩
  cases st <;> cases val <;> simp [imageOutcome]

/-! ### Claims -/

/-- C10: for an empty or missing input file list, both batch upload
operations (videos and images) return an empty outcome list, issue no
storage, delete or asset-creation call, and raise no error; the storage
client's own batch entry behaves the same. -/
theorem claim_C10 (env : Env) (uuids : Nat → String)
    (titles? : Option (List String)) :
    uploadMultipleVideos env uuids none titles? = (.ok [], []) ∧
    uploadMultipleVideos env uuids (some []) titles? = (.ok [], []) ∧
    uploadMultipleImages env uuids none = (.ok [], []) ∧
    uploadMultipleImages env uuids (some []) = (.ok [], []) ∧
    uploadMultipleFiles env uuids none .video none = ([], []) ∧
    uploadMultipleFiles env uuids (some []) .image none = ([], []) :=
  ⟨rfl, rfl, rfl, rfl, rfl, rfl⟩

/-- C8: the storage put fails with a validation error — issuing no
network call (empty external trace) — whenever the MIME type is outside
the namespace's allow-list or the size exceeds the namespace's ceiling;
when the MIME type is allowed but the size is over the ceiling, the error
is the size-limit message. -/
theorem claim_C8 (env : Env) (uuid : String) (file : UFile)
    (fileType : FileType) (folder : String)
    (h : file.mimetype = "" ∨ file.mimetype ∉ allowedTypes fileType ∨
         file.size > maxFileSize fileType) :
    (∃ msg, uploadFile env uuid (some file) fileType folder = (.error msg, [])) ∧
    (file.mimetype ∈ allowedTypes fileType → file.size > maxFileSize fileType →
      uploadFile env uuid (some file) fileType folder =
        (.error ("File size exceeds limit. Maximum size for " ++
          fileTypeName fileType ++ " is " ++
          toString (maxFileSize fileType / (1024 * 1024)) ++ "MB"), [])) := by
  constructor
  · rcases hv : validateFile file fileType with _ | msg
    · have hc := validateFile_none file fileType hv
      rcases h with h | h | h
      · exact absurd h hc.1
      · exact absurd hc.2.1 h
      · omega
    · exact ⟨msg, by simp [uploadFile, hv]⟩
  · intro hmem hsz
    simp [uploadFile, validateFile_oversize file fileType hmem hsz]

/-- C8 witness: a 6MB image/png payload is rejected with the size-limit
message before any network call. -/
theorem claim_C8_witness :
    (∃ msg, uploadFile envAllOk "u1" (some fBigPng) .image "images" = (.error msg, [])) ∧
    (fBigPng.mimetype ∈ allowedTypes .image → fBigPng.size > maxFileSize .image →
      uploadFile envAllOk "u1" (some fBigPng) .image "images" =
        (.error ("File size exceeds limit. Maximum size for " ++
          fileTypeName .image ++ " is " ++
          toString (maxFileSize .image / (1024 * 1024)) ++ "MB"), [])) :=
  claim_C8 envAllOk "u1" fBigPng .image "images" (Or.inr (Or.inr (by decide)))

/-- C9: single video upload with no caller title: when S3 put, head and
Mux creation all succeed, the storage key is
`videos/<uuid>-<original name>`, the asset title is the original file
name, and the outcome is `success` carrying the asset's status merged
with the stored object's URL, content type and size. -/
theorem claim_C9 (env : Env) (uuid : String) (f : UFile) (ct : String)
    (sz : Nat) (a : RawAsset) (key : String)
    (hkey : key = "videos/" ++ uuid ++ "-" ++ f.originalname)
    (hval : validateFile f .video = none)
    (hput : env.putResult key = none)
    (hhead : env.headResult key = .ok { contentType := some ct, contentLength := some sz })
    (hmux : env.createAssetResult (objectUrl env key) = some a) :
    uploadVideo env uuid f none =
      (.ok
        { status := .success
          data := some
            { id := some a.id
              title := some f.originalname
              url := objectUrl env key
              status := some a.status
              duration := some a.duration
              aspectRatio := some a.aspectRatio
              playbackId := a.playbackIds.head?
              createdAt := some a.createdAt
              uploadId := some a.uploadId
              s3Url := objectUrl env key
              contentType := ct
              size := sz }
          fileName := f.originalname },
       [.s3Put env.bucketName key f.mimetype, .s3Head env.bucketName key,
        .muxCreate (objectUrl env key)]) := by
  subst hkey
  simp [uploadVideo, uploadVideoBody, uploadFile, hval, hput, getFileMetadata,
    hhead, createAsset, hmux, resolveTitle, mergedVideoData]

/-- C9 witness: the 50-byte clip.mp4 scenario with asset status
`preparing`. -/
theorem claim_C9_witness :
    uploadVideo envAllOk "u1" fClip none =
      (.ok
        { status := .success
          data := some
            { id := some "asset-1"
              title := some "clip.mp4"
              url := "https://b.s3.r.amazonaws.com/videos/u1-clip.mp4"
              status := some "preparing"
              duration := some 120
              aspectRatio := some "16:9"
              playbackId := some "pb-1"
              createdAt := some 1700000000
              uploadId := some "up-1"
              s3Url := "https://b.s3.r.amazonaws.com/videos/u1-clip.mp4"
              contentType := "video/mp4"
              size := 50 }
          fileName := "clip.mp4" },
       [.s3Put "b" "videos/u1-clip.mp4" "video/mp4", .s3Head "b" "videos/u1-clip.mp4",
        .muxCreate "https://b.s3.r.amazonaws.com/videos/u1-clip.mp4"]) :=
  claim_C9 envAllOk "u1" fClip "video/mp4" 50 rawPreparing "videos/u1-clip.mp4"
    rfl rfl rfl rfl rfl

/-- C4 counterexample: in the single-item video flow, after a successful
storage write (`envMuxDown` accepts the put and the head) and a failed
Mux asset creation, the method issues NO delete call — the full external
trace is put, head, mux-create — contradicting the claim that the
just-written storage object is deleted. -/
theorem claim_C4_counterexample :
    uploadVideo envMuxDown "u1" fClip none =
      (.ok
        { status := .failed
          error := some "Failed to process video with Mux"
          fileName := "clip.mp4" },
       [.s3Put "b" "videos/u1-clip.mp4" "video/mp4", .s3Head "b" "videos/u1-clip.mp4",
        .muxCreate "https://b.s3.r.amazonaws.com/videos/u1-clip.mp4"]) ∧
    List.countP
        (fun c => match c with | ExtCall.s3Delete _ _ => true | _ => false)
        (uploadVideo envMuxDown "u1" fClip none).2 = 0 :=
  ⟨rfl, rfl⟩

/-- C4 amended: in the single-item video flow, if asset creation fails
after the storage write succeeded, NO compensating delete is issued (the
external trace is exactly put, head, mux-create) and a `failed` outcome
is returned whose error is the processing-failure message. -/
theorem claim_C4 (env : Env) (uuid : String) (f : UFile)
    (title? : Option String) (h : HeadResp) (key : String)
    (hkey : key = "videos/" ++ uuid ++ "-" ++ f.originalname)
    (hval : validateFile f .video = none)
    (hput : env.putResult key = none)
    (hhead : env.headResult key = .ok h)
    (hmux : env.createAssetResult (objectUrl env key) = none) :
    uploadVideo env uuid f title? =
      (.ok
        { status := .failed
          error := some "Failed to process video with Mux"
          fileName := f.originalname },
       [.s3Put env.bucketName key f.mimetype, .s3Head env.bucketName key,
        .muxCreate (objectUrl env key)]) ∧
    List.countP
        (fun c => match c with | ExtCall.s3Delete _ _ => true | _ => false)
        (uploadVideo env uuid f title?).2 = 0 := by
  subst hkey
  have heq : uploadVideo env uuid f title? =
      (.ok
        { status := .failed
          error := some "Failed to process video with Mux"
          fileName := f.originalname },
       [.s3Put env.bucketName ("videos/" ++ uuid ++ "-" ++ f.originalname) f.mimetype,
        .s3Head env.bucketName ("videos/" ++ uuid ++ "-" ++ f.originalname),
        .muxCreate (objectUrl env ("videos/" ++ uuid ++ "-" ++ f.originalname))]) := by
    simp [uploadVideo, uploadVideoBody, uploadFile, hval, hput, getFileMetadata,
      hhead, createAsset, hmux]
  refine ⟨heq, ?_⟩
  rw [heq]
  rfl

/-- C4 witness: the amended statement at the concrete failing-Mux
environment. -/
theorem claim_C4_witness :
    uploadVideo envMuxDown "u2" fClip none =
      (.ok
        { status := .failed
          error := some "Failed to process video with Mux"
          fileName := "clip.mp4" },
       [.s3Put "b" "videos/u2-clip.mp4" "video/mp4", .s3Head "b" "videos/u2-clip.mp4",
        .muxCreate "https://b.s3.r.amazonaws.com/videos/u2-clip.mp4"]) ∧
    List.countP
        (fun c => match c with | ExtCall.s3Delete _ _ => true | _ => false)
        (uploadVideo envMuxDown "u2" fClip none).2 = 0 :=
  claim_C4 envMuxDown "u2" fClip none
    { contentType := some "video/mp4", contentLength := some 50 }
    "videos/u2-clip.mp4" rfl rfl rfl rfl rfl

/-- C7 counterexample: a single-item upload whose storage write fails
does NOT throw: the try-block fails (`uploadVideoBody` is an error) yet
the method returns a non-throwing `failed` `UploadResult` — contradicting
the claim that single-item flows raise on any failure. -/
theorem claim_C7_counterexample :
    (uploadVideoBody envS3Down "u1" fClip none).1 =
      .error "Failed to upload file to S3: boom" ∧
    uploadVideo envS3Down "u1" fClip none =
      (.ok
        { status := .failed
          error := some "Failed to upload file to S3: boom"
          fileName := "clip.mp4" },
       [.s3Put "b" "videos/u1-clip.mp4" "video/mp4"]) ∧
    (uploadImageBody envS3Down "u1" fPng).1 =
      .error "Failed to upload file to S3: boom" ∧
    uploadImage envS3Down "u1" fPng =
      (.ok
        { status := .failed
          error := some "Failed to upload file to S3: boom"
          fileName := "pic.png" },
       [.s3Put "b" "images/u1-pic.png" "image/png"]) :=
  ⟨rfl, rfl, rfl, rfl⟩

/-- C7 amended: single-item flows never throw — every failure of the
try-block is caught and converted into a returned `UploadResult` with
status `failed` carrying the original error message, and the methods
always return (no wrapping into a categorized upload error happens in
the orchestrator). -/
theorem claim_C7 (env : Env) (uuid : String) (f : UFile)
    (title? : Option String) :
    (∀ e t, uploadVideoBody env uuid f title? = (.error e, t) →
      uploadVideo env uuid f title? =
        (.ok { status := .failed, error := some e, fileName := f.originalname }, t)) ∧
    (∃ r t, uploadVideo env uuid f title? = (.ok r, t)) ∧
    (∀ e t, uploadImageBody env uuid f = (.error e, t) →
      uploadImage env uuid f =
        (.ok { status := .failed, error := some e, fileName := f.originalname }, t)) ∧
    (∃ r t, uploadImage env uuid f = (.ok r, t)) := by
  refine ⟨?_, ?_, ?_, ?_⟩
  · intro e t he
    simp [uploadVideo, he]
  · rcases hb : uploadVideoBody env uuid f title? with ⟨rb, t⟩
    cases rb with
    | ok r => exact ⟨r, t, by simp [uploadVideo, hb]⟩
    | error e =>
      exact ⟨{ status := .failed, error := some e, fileName := f.originalname }, t,
        by simp [uploadVideo, hb]⟩
  · intro e t he
    simp [uploadImage, he]
  · rcases hb : uploadImageBody env uuid f with ⟨rb, t⟩
    cases rb with
    | ok r => exact ⟨r, t, by simp [uploadImage, hb]⟩
    | error e =>
      exact ⟨{ status := .failed, error := some e, fileName := f.originalname }, t,
        by simp [uploadImage, hb]⟩

/-- C5 counterexample: an 11-file batch (the spec's configured maximum
is 10) is NOT rejected by the current program: `uploadMultipleVideos`
returns 11 per-item outcomes and issues 11 storage put calls; a 3-file
request with a 2-element titles list is likewise processed, returning 3
per-item outcomes — no wholesale validation error exists on this path. -/
theorem claim_C5_counterexample :
    ((uploadMultipleVideos envAllOk uuidsAt
        (some (List.replicate 11 fClip)) none).1.toOption.map List.length) =
      some 11 ∧
    List.countP
        (fun c => match c with | ExtCall.s3Put _ _ _ => true | _ => false)
        (uploadMultipleVideos envAllOk uuidsAt
          (some (List.replicate 11 fClip)) none).2 = 11 ∧
    ((uploadMultipleVideos envAllOk uuidsAt (some [fClip, fClip, fClip])
        (some ["a", "b"])).1.toOption.map List.length) = some 3 :=
  ⟨rfl, rfl, rfl⟩

/-- C5 amended: the current program performs NO pre-flight batch
validation: a batch whose file count exceeds the spec's configured
maximum of 10, or whose titles list length differs from the files list
length, is processed like any other request — the orchestrator returns
normally with exactly one per-item outcome per input file, in input
order, instead of rejecting the request before storage calls.  (The
up-front check exists only in a superseded service version, not in the
current `uploadMultipleVideos` or controller.) -/
theorem claim_C5 (env : Env) (uuids : Nat → String) (fs : List UFile)
    (titles? : Option (List String))
    (_h : fs.length > 10 ∨ ∃ ts, titles? = some ts ∧ ts.length ≠ fs.length)
    (hne : fs ≠ []) :
    ∃ outs t, uploadMultipleVideos env uuids (some fs) titles? = (.ok outs, t) ∧
      outs.length = fs.length ∧
      ∀ i : Nat, (outs[i]?).map UploadResult.fileName =
        (fs[i]?).map UFile.originalname := by
  have hlen : ¬ fs.length = 0 := fun h0 => hne (List.length_eq_zero.mp h0)
  refine ⟨_, _, uploadMultipleVideos_eq env uuids fs titles? hlen, ?_, ?_⟩
  · rw [muxPhase_length, uploadMultipleFiles_some env uuids fs .video none hlen,
      uploadEach_length]
  · intro i
    rw [muxPhase_getElem?, uploadMultipleFiles_some env uuids fs .video none hlen,
      uploadEach_getElem?]
    cases hfi : fs[i]? with
    | none => simp [hfi]
    | some f => simp [hfi, muxOne_fileName, settleUpload_fileName]

/-- C5 witness: the amended statement at the over-limit 11-file input. -/
theorem claim_C5_witness :
    ∃ outs t, uploadMultipleVideos envAllOk uuidsAt
        (some (List.replicate 11 fClip)) none = (.ok outs, t) ∧
      outs.length = 11 ∧
      (outs[10]?).map UploadResult.fileName = some "clip.mp4" := by
  obtain ⟨outs, t, h1, h2, h3⟩ :=
    claim_C5 envAllOk uuidsAt (List.replicate 11 fClip) none
      (Or.inl (by decide)) (by decide)
  refine ⟨outs, t, h1, by simpa using h2, ?_⟩
  have h10 := h3 10
  simpa [List.getElem?_replicate, fClip] using h10

/-- C6 counterexample: sanitization is NOT applied to every
caller-supplied title: the single-video endpoint passes the title to the
orchestrator raw, so the created asset's title is the unsanitized
"  My Video!! " — while the batch-videos boundary maps the same input to
"My Video". -/
theorem claim_C6_counterexample :
    (singleVideoEndpoint envAllOk "u1" fClip (some "  My Video!! ")).1 =
      .ok
        { status := .success
          data := some
            { id := some "asset-1"
              title := some "  My Video!! "
              url := "https://b.s3.r.amazonaws.com/videos/u1-clip.mp4"
              status := some "preparing"
              duration := some 120
              aspectRatio := some "16:9"
              playbackId := some "pb-1"
              createdAt := some 1700000000
              uploadId := some "up-1"
              s3Url := "https://b.s3.r.amazonaws.com/videos/u1-clip.mp4"
              contentType := "video/mp4"
              size := 50 }
          fileName := "clip.mp4" } ∧
    sanitizeTitles (some [some "  My Video!! "]) = ["My Video"] ∧
    ("  My Video!! " : String) ≠ "My Video" :=
  ⟨rfl, by decide, by decide⟩

/-- C6 amended: title sanitization exists only at the batch-videos
boundary: there every raw title is trimmed and stripped to characters in
{letters, digits, hyphen, underscore, period, space} ("  My Video!! "
becomes "My Video", an undefined entry becomes the empty string) before
the orchestrator is called; the single-video endpoint passes the
caller's title through unmodified; and an absent title — or a title the
boundary sanitized to the empty string — falls back to the file's
original name through the orchestrator's `title || originalname`
resolution. -/
theorem claim_C6 (env : Env) (uuids : Nat → String) (uuid : String)
    (files : List UFile) (f : UFile)
    (rawTitles? : Option (List (Option String))) (title? : Option String) :
    sanitizeOne (some "  My Video!! ") = "My Video" ∧
    (∀ t?, ∀ c ∈ (sanitizeOne t?).toList, allowedTitleChar c = true) ∧
    batchVideosEndpoint env uuids files rawTitles? =
      uploadMultipleVideos env uuids (some files)
        (some (sanitizeTitles rawTitles?)) ∧
    singleVideoEndpoint env uuid f title? = uploadVideo env uuid f title? ∧
    (∀ d, resolveTitle none d = d) ∧
    (∀ d, resolveTitle (some "") d = d) := by
  refine ⟨by decide, ?_, rfl, rfl, fun d => rfl, fun d => rfl⟩
  intro t? c hc
  cases t? with
  | none => exact absurd hc (List.not_mem_nil c)
  | some t => exact (List.mem_filter.mp hc).2

/-- C6 witness: the amended statement at concrete inputs — sanitized
batch title, raw single title, and the fallbacks. -/
theorem claim_C6_witness :
    sanitizeOne (some "  My Video!! ") = "My Video" ∧
    (∀ c ∈ ("My Video").toList, allowedTitleChar c = true) ∧
    batchVideosEndpoint envAllOk uuidsAt [fClip] (some [some "  My Video!! "]) =
      uploadMultipleVideos envAllOk uuidsAt (some [fClip]) (some ["My Video"]) ∧
    singleVideoEndpoint envAllOk "u1" fClip (some "  My Video!! ") =
      uploadVideo envAllOk "u1" fClip (some "  My Video!! ") ∧
    resolveTitle none "clip.mp4" = "clip.mp4" ∧
    resolveTitle (some "") "clip.mp4" = "clip.mp4" := by
  obtain ⟨h1, h2, h3, h4, h5, h6⟩ :=
    claim_C6 envAllOk uuidsAt "u1" [fClip] fClip
      (some [some "  My Video!! "]) (some "  My Video!! ")
  refine ⟨h1, ?_, ?_, h4, h5 "clip.mp4", h6 "clip.mp4"⟩
  · intro c hc
    apply h2 (some "  My Video!! ") c
    rw [h1]
    exact hc
  · rw [h3, show sanitizeTitles (some [some "  My Video!! "]) = ["My Video"] from
      by decide]

/-- C7 witness: the amended statement at the failing-storage
environment. -/
theorem claim_C7_witness :
    uploadVideo envS3Down "u1" fClip none =
      (.ok
        { status := .failed
          error := some "Failed to upload file to S3: boom"
          fileName := "clip.mp4" },
       [.s3Put "b" "videos/u1-clip.mp4" "video/mp4"]) ∧
    (∃ r t, uploadImage envS3Down "u1" fPng = (.ok r, t)) :=
  ⟨(claim_C7 envS3Down "u1" fClip none).1
      "Failed to upload file to S3: boom"
      [.s3Put "b" "videos/u1-clip.mp4" "video/mp4"] rfl,
   (claim_C7 envS3Down "u1" fPng none).2.2.2⟩

/-- C1: every batch upload (videos or images) over a non-empty input list
returns exactly one outcome per input file, outcome i carrying input i's
file name (input order preserved); and the all-settled collection model
writes results into position-indexed slots, so its output is the same for
every completion order of the concurrent calls. -/
theorem claim_C1 (env : Env) (uuids : Nat → String) (fs : List UFile)
    (titles? : Option (List String)) (hne : fs ≠ []) :
    (∃ outs t, uploadMultipleVideos env uuids (some fs) titles? = (.ok outs, t) ∧
      outs.length = fs.length ∧
      ∀ i : Nat, (outs[i]?).map UploadResult.fileName =
        (fs[i]?).map UFile.originalname) ∧
    (∃ outs t, uploadMultipleImages env uuids (some fs) = (.ok outs, t) ∧
      outs.length = fs.length ∧
      ∀ i : Nat, (outs[i]?).map UploadResult.fileName =
        (fs[i]?).map UFile.originalname) ∧
    (∀ (tasks : List Settled) (order : List Nat),
      order.Perm (List.range tasks.length) →
      settleSlots tasks order = tasks.map some) := by
  have hlen : ¬ fs.length = 0 := by
    intro h0
    exact hne (List.length_eq_zero.mp h0)
  refine ⟨?_, ?_, fun tasks order hp => settleSlots_of_perm tasks order hp⟩
  · refine ⟨_, _, uploadMultipleVideos_eq env uuids fs titles? hlen, ?_, ?_⟩
    · rw [muxPhase_length, uploadMultipleFiles_some env uuids fs .video none hlen,
        uploadEach_length]
    · intro i
      rw [muxPhase_getElem?, uploadMultipleFiles_some env uuids fs .video none hlen,
        uploadEach_getElem?]
      cases hfi : fs[i]? with
      | none => simp [hfi]
      | some f => simp [hfi, muxOne_fileName, settleUpload_fileName]
  · refine ⟨_, _, uploadMultipleImages_eq env uuids fs hlen, ?_, ?_⟩
    · rw [List.length_map, uploadMultipleFiles_some env uuids fs .image none hlen,
        uploadEach_length]
    · intro i
      rw [List.getElem?_map, uploadMultipleFiles_some env uuids fs .image none hlen,
        uploadEach_getElem?]
      cases hfi : fs[i]? with
      | none => simp [hfi]
      | some f => simp [hfi, imageOutcome_fileName, settleUpload_fileName]

/-- C1 witness: a concrete two-file batch (videos and images) and a
concrete out-of-order completion schedule. -/
theorem claim_C1_witness :
    (∃ outs t, uploadMultipleVideos envAllOk uuidsAt (some [fClip, fOther]) none =
        (.ok outs, t) ∧
      outs.length = [fClip, fOther].length ∧
      (outs[0]?).map UploadResult.fileName = some "clip.mp4" ∧
      (outs[1]?).map UploadResult.fileName = some "other.mp4") ∧
    (∃ outs t, uploadMultipleImages envAllOk uuidsAt (some [fClip, fOther]) =
        (.ok outs, t) ∧
      outs.length = [fClip, fOther].length) ∧
    settleSlots settledPair [1, 0] = settledPair.map some := by
  obtain ⟨⟨vouts, vt, hv, hvl, hvf⟩, ⟨iouts, it, hi, hil, _⟩, hs⟩ :=
    claim_C1 envAllOk uuidsAt [fClip, fOther] none (by decide)
  refine ⟨⟨vouts, vt, hv, hvl, ?_, ?_⟩, ⟨iouts, it, hi, hil⟩,
    hs settledPair [1, 0] (by decide)⟩
  · have h0 := hvf 0
    simpa [fClip] using h0
  · have h1 := hvf 1
    simpa [fOther] using h1

/-- C2: in a batch video upload, an item whose storage write succeeded
but whose Mux asset creation failed resolves to a `failed` outcome, its
processing step issues exactly one delete for the item's storage key
(its full per-item trace is the mux-create followed by that one delete),
the batch trace is exactly the concatenation of per-item traces, and the
outcome is the same fixed record whatever the delete oracle answers —
a compensating-delete failure is never surfaced. -/
theorem claim_C2 (env : Env) (uuids : Nat → String) (fs : List UFile)
    (titles? : Option (List String)) (i : Nat) (r : Settled) (v : S3UploadResult)
    (hr : ((uploadMultipleFiles env uuids (some fs) .video none).1)[i]? = some r)
    (hst : r.status = .fulfilled) (hv : r.value = some v)
    (hmux : env.createAssetResult v.url = none) :
    ∃ outs t, uploadMultipleVideos env uuids (some fs) titles? = (.ok outs, t) ∧
      outs[i]? = some
        { status := .failed
          error := some "Mux processing failed: Failed to process video with Mux"
          fileName := r.fileName } ∧
      (muxOne env fs titles? i r).2 =
        [ExtCall.muxCreate v.url, ExtCall.s3Delete env.bucketName v.key] ∧
      List.count (ExtCall.s3Delete env.bucketName v.key)
        (muxOne env fs titles? i r).2 = 1 ∧
      (muxPhase env fs titles? 0
          (uploadMultipleFiles env uuids (some fs) .video none).1).2 =
        (muxTraces env fs titles? 0
          (uploadMultipleFiles env uuids (some fs) .video none).1).flatten ∧
      (muxTraces env fs titles? 0
          (uploadMultipleFiles env uuids (some fs) .video none).1)[i]? =
        some (muxOne env fs titles? i r).2 := by
  have hlen : ¬ fs.length = 0 := by
    intro h0
    rw [List.length_eq_zero.mp h0] at hr
    simp [uploadMultipleFiles] at hr
  have hmsg : "Mux processing failed: " ++ "Failed to process video with Mux" =
      "Mux processing failed: Failed to process video with Mux" := rfl
  have hone : muxOne env fs titles? i r =
      ({ status := .failed
         error := some "Mux processing failed: Failed to process video with Mux"
         fileName := r.fileName },
       [ExtCall.muxCreate v.url, ExtCall.s3Delete env.bucketName v.key]) := by
    rcases r with ⟨st, val, rsn, fn⟩
    simp only at hst hv
    subst hst
    subst hv
    simp [muxOne, createAsset, hmux, deleteFile_trace, hmsg]
  refine ⟨_, _, uploadMultipleVideos_eq env uuids fs titles? hlen, ?_, ?_, ?_,
    muxPhase_trace env fs titles? 0 _, ?_⟩
  · rw [muxPhase_getElem?, hr]
    simp [hone]
  · rw [hone]
  · rw [hone]
    simp [List.count_cons]
  · rw [muxTraces_getElem?, hr]
    simp

/-- C2 witness: one-file batch in which storage succeeds, Mux fails and
the compensating delete itself fails — the outcome is still the fixed
`failed` record and exactly one delete is issued. -/
theorem claim_C2_witness :
    ∃ outs t, uploadMultipleVideos envMuxDown uuidsAt (some [fClip]) none =
        (.ok outs, t) ∧
      outs[0]? = some
        { status := .failed
          error := some "Mux processing failed: Failed to process video with Mux"
          fileName := "clip.mp4" } ∧
      (muxOne envMuxDown [fClip] none 0 rMux).2 =
        [ExtCall.muxCreate vMux.url, ExtCall.s3Delete "b" vMux.key] ∧
      List.count (ExtCall.s3Delete "b" vMux.key)
        (muxOne envMuxDown [fClip] none 0 rMux).2 = 1 := by
  obtain ⟨outs, t, h1, h2, h3, h4, _, _⟩ :=
    claim_C2 envMuxDown uuidsAt [fClip] none 0 rMux vMux rfl rfl rfl rfl
  exact ⟨outs, t, h1, h2, h3, h4⟩

/-- C3: in a batch video upload, an item whose storage write failed
resolves to a `failed` outcome carrying the storage failure reason (the
settled record's reason, which is exactly the error of that item's
`uploadFile` call), and no Mux asset-creation call is ever issued for
that item — its per-item trace is empty, and the batch trace is exactly
the concatenation of per-item traces. -/
theorem claim_C3 (env : Env) (uuids : Nat → String) (fs : List UFile)
    (titles? : Option (List String)) (i : Nat) (r : Settled)
    (hr : ((uploadMultipleFiles env uuids (some fs) .video none).1)[i]? = some r)
    (hst : r.status = .rejected) :
    ∃ outs t, uploadMultipleVideos env uuids (some fs) titles? = (.ok outs, t) ∧
      outs[i]? = some
        { status := .failed, error := r.reason, fileName := r.fileName } ∧
      (muxOne env fs titles? i r).2 = [] ∧
      (muxTraces env fs titles? 0
          (uploadMultipleFiles env uuids (some fs) .video none).1)[i]? =
        some ([] : List ExtCall) ∧
      (muxPhase env fs titles? 0
          (uploadMultipleFiles env uuids (some fs) .video none).1).2 =
        (muxTraces env fs titles? 0
          (uploadMultipleFiles env uuids (some fs) .video none).1).flatten ∧
      (∃ f e tr, fs[i]? = some f ∧
        uploadFile env (uuids i) (some f) .video "videos" = (.error e, tr) ∧
        r.reason = some e ∧ r.fileName = f.originalname) := by
  have hlen : ¬ fs.length = 0 := by
    intro h0
    rw [List.length_eq_zero.mp h0] at hr
    simp [uploadMultipleFiles] at hr
  have hone : muxOne env fs titles? i r =
      ({ status := .failed, error := r.reason, fileName := r.fileName }, []) := by
    rcases r with ⟨st, val, rsn, fn⟩
    simp only at hst
    subst hst
    cases val <;> rfl
  have hget := hr
  rw [uploadMultipleFiles_some env uuids fs .video none hlen,
    uploadEach_getElem?] at hget
  simp only [Option.getD_none, defaultFolder] at hget
  refine ⟨_, _, uploadMultipleVideos_eq env uuids fs titles? hlen, ?_, ?_, ?_,
    muxPhase_trace env fs titles? 0 _, ?_⟩
  · rw [muxPhase_getElem?, hr]
    simp [hone]
  · rw [hone]
  · rw [muxTraces_getElem?, hr]
    simp [hone]
  · cases hfi : fs[i]? with
    | none =>
      rw [hfi] at hget
      cases hget
    | some f =>
      rw [hfi] at hget
      simp only [Option.map_some'] at hget
      have hset := Option.some.inj hget
      rcases hu : uploadFile env (uuids (0 + i)) (some f) .video "videos" with ⟨res, tr⟩
      cases res with
      | ok w =>
        simp only [settleUpload, hu] at hset
        rw [← hset] at hst
        cases hst
      | error e =>
        simp only [settleUpload, hu] at hset
        refine ⟨f, e, tr, rfl, ?_, ?_, ?_⟩
        · rw [show i = 0 + i by omega]
          exact hu
        · rw [← hset]
        · rw [← hset]

/-- C3 witness: one-file batch whose storage write fails: the outcome
carries the storage failure reason and the item's processing step issues
no call. -/
theorem claim_C3_witness :
    ∃ outs t, uploadMultipleVideos envS3Down uuidsAt (some [fClip]) none =
        (.ok outs, t) ∧
      outs[0]? = some
        { status := .failed
          error := some "Failed to upload file to S3: boom"
          fileName := "clip.mp4" } ∧
      (muxOne envS3Down [fClip] none 0 rS3).2 = [] := by
  obtain ⟨outs, t, h1, h2, h3, _, _, _⟩ :=
    claim_C3 envS3Down uuidsAt [fClip] none 0 rS3 rfl rfl
  exact ⟨outs, t, h1, h2, h3⟩

end EventStream
